import Mathlib

/-
Verification development for the `ublox-sockets` socket-abstraction layer.

The Lean definitions below are a shallow embedding of the Rust sources:
  - `src/tcp.rs`          — the TCP-style socket (`TcpSocket`) and its state machine;
  - `src/udp_listener.rs` — the UDP listener / demultiplexer (`UdpListener`);
  - `src/lib.rs`          — the `Error` type.

Machine integers (`u8`, `u16`, `usize`, tick counts) are modelled as `Nat`;
none of the verified operations rely on wraparound of those integers.
`fugit::Instant` is modelled as a `Nat` tick count with
`checked_duration_since a b = some (a - b)` when `b ≤ a` and `none` otherwise,
matching the non-wrapped regime of the monotonic clock the design assumes.
Methods taking `&mut self` are modelled by explicit state passing: they return
their result paired with the updated value.

The circular receive buffer (`RingBuffer`) and the listener's
`outgoing_connection` registration are not among the given source files, so
they are modelled from the specification text, as marked in their doc
comments.  Everything else is translated directly from the source.
-/

set_option autoImplicit false

/-- Opaque socket-slot identity, `Handle(pub u8)` in the source. -/
structure SocketHandle where
  id : Nat
deriving DecidableEq

/-- `embedded_nal::SocketAddr`, treated as an opaque value with decidable
equality (the source only ever compares addresses for equality). -/
structure SocketAddr where
  raw : Nat
deriving DecidableEq

/-- The error type of the networking stack, from `src/lib.rs`. -/
inductive Error where
  | Exhausted
  | Illegal
  | Unaddressable
  | SocketClosed
  | BadLength
  | NotBound
  | ListenerError
  | SocketSetFull
  | InvalidSocket
  | DuplicateSocket
  | Timeout
deriving DecidableEq

/-- A byte (`u8`); the verified properties do not depend on the 0..255 bound. -/
abbrev Byte := Nat

/-- `Instant::checked_duration_since`: the elapsed duration from `earlier`
to `ts`, or `none` when `earlier` is later than `ts`. -/
def checked_duration_since (ts earlier : Nat) : Option Nat :=
  if earlier ≤ ts then some (ts - earlier) else none

/-- Modelled from the spec: the `CircularBuffer<T, N>` of section 4.1
(`src/ring_buffer.rs` is not among the given source files).  A fixed
capacity, a read cursor mod the capacity, and a length with `len ≤ capacity`;
the write cursor is `(read + len) % capacity`. -/
structure RingBuffer where
  capacity : Nat
  storage : List Byte
  read : Nat
  len : Nat
deriving DecidableEq

/-- `SocketBuffer<N>` is `RingBuffer<u8, N>` in the source. -/
abbrev SocketBuffer := RingBuffer

namespace RingBuffer

/-- Modelled from the spec: a fresh empty buffer of the given capacity. -/
def new (capacity : Nat) : RingBuffer :=
  { capacity := capacity, storage := List.replicate capacity 0, read := 0, len := 0 }

/-- Modelled from the spec: `is_empty() ⇔ len == 0`. -/
def is_empty (b : RingBuffer) : Bool :=
  b.len == 0

/-- Modelled from the spec: `is_full() ⇔ len == N`. -/
def is_full (b : RingBuffer) : Bool :=
  b.len == b.capacity

/-- Modelled from the spec: `window()` — bytes of free space. -/
def window (b : RingBuffer) : Nat :=
  b.capacity - b.len

/-- Modelled from the spec: `clear()` resets the cursors, emptying the buffer. -/
def clear (b : RingBuffer) : RingBuffer :=
  { b with read := 0, len := 0 }

/-- Advance the read cursor past `n` dequeued elements. -/
def advance (b : RingBuffer) (n : Nat) : RingBuffer :=
  { b with
    read := if b.capacity = 0 then 0 else (b.read + n) % b.capacity,
    len := b.len - n }

/-- The single largest contiguous readable span, starting at the read cursor
and stopping at the end of the storage or of the readable region. -/
def contiguousSpan (b : RingBuffer) : List Byte :=
  (b.storage.drop b.read).take (min b.len (b.capacity - b.read))

/-- Modelled from the spec: `dequeue_many_with(f)` — invoke `f` with the
single largest contiguous readable span, dequeue exactly as many elements as
`f` reports consuming (clipped to the span), and return `f`'s auxiliary
result alongside the dequeued count. -/
def dequeue_many_with {R : Type} (b : RingBuffer) (f : List Byte → Nat × R) :
    (Nat × R) × RingBuffer :=
  let span := contiguousSpan b
  let res := f span
  let n := min res.1 span.length
  ((n, res.2), advance b n)

/-- Modelled from the spec: `dequeue_many_with_wrapping(f)` — invoke `f` with
the first contiguous span and, when the readable region wraps past the end of
the storage, a second span covering the remainder; dequeue as many elements
as `f` reports consuming (clipped to the readable length). -/
def dequeue_many_with_wrapping {R : Type} (b : RingBuffer)
    (f : List Byte → Option (List Byte) → Nat × R) : (Nat × R) × RingBuffer :=
  let first := contiguousSpan b
  let second :=
    if b.capacity - b.read < b.len then
      some (b.storage.take (b.len - (b.capacity - b.read)))
    else none
  let res := f first second
  let n := min res.1 b.len
  ((n, res.2), advance b n)

/-- Modelled from the spec: `dequeue_slice(out)` — dequeue at most the
readable length into a destination of the given size, clipped; returns the
count actually read. -/
def dequeue_slice (b : RingBuffer) (outLen : Nat) : Nat × RingBuffer :=
  let n := min b.len outLen
  (n, advance b n)

/-- Overwrite storage positions starting at `start` (mod `cap`) with the
given bytes. -/
def writeBytes (storage : List Byte) (cap : Nat) : Nat → List Byte → List Byte
  | _, [] => storage
  | start, x :: rest => writeBytes (storage.set (start % cap) x) cap (start + 1) rest

/-- Modelled from the spec: `enqueue_slice(data)` — write at most `window()`
bytes at the write cursor (partial write when free space is short) and return
the count actually written. -/
def enqueue_slice (b : RingBuffer) (data : List Byte) : Nat × RingBuffer :=
  let n := min data.length (b.capacity - b.len)
  (n,
    { b with
      storage := writeBytes b.storage b.capacity (b.read + b.len) (data.take n),
      len := b.len + n })

/-- Modelled from the spec: `get_allocated(offset, size)` — read-only,
non-destructive span access for peeking: the contiguous bytes starting
`offset` past the read cursor, clipped to the readable length and to the end
of the storage. -/
def get_allocated (b : RingBuffer) (offset size : Nat) : List Byte :=
  if b.len < offset then []
  else
    let start := if b.capacity = 0 then 0 else (b.read + offset) % b.capacity
    let n := min (min size (b.len - offset)) (b.capacity - start)
    (b.storage.drop start).take n

end RingBuffer

/-- The connection states of `src/tcp.rs`. `State` in the source; exported
as `TcpState` by `src/lib.rs`. -/
inductive TcpState where
  | Created
  | WaitingForConnect (endpoint : SocketAddr)
  | Connected (endpoint : SocketAddr)
  | ShutdownForWrite (closed_time : Nat)
deriving DecidableEq

/-- `TcpSocket<TIMER_HZ, L>` from `src/tcp.rs`.  Durations
(`check_interval`, `read_timeout`) are held in the same tick unit as
`Instant`. -/
structure TcpSocket where
  handle : Nat
  state : TcpState
  check_interval : Nat
  read_timeout : Option Nat
  available_data : Nat
  rx_buffer : SocketBuffer
  last_check_time : Option Nat
deriving DecidableEq

namespace TcpSocket

/-- `TcpSocket::new(socket_id)`: fresh socket with a buffer of capacity `L`,
`check_interval` and `read_timeout` defaulting to 15 seconds. -/
def new (socket_id : Nat) (L : Nat) : TcpSocket :=
  { handle := socket_id
    state := TcpState.Created
    rx_buffer := RingBuffer.new L
    available_data := 0
    check_interval := 15
    read_timeout := some 15
    last_check_time := none }

/-- `set_state`. -/
def set_state (s : TcpSocket) (st : TcpState) : TcpSocket :=
  { s with state := st }

/-- `set_available_data`. -/
def set_available_data (s : TcpSocket) (n : Nat) : TcpSocket :=
  { s with available_data := n }

/-- `get_available_data`. -/
def get_available_data (s : TcpSocket) : Nat :=
  s.available_data

/-- `is_connected`: whether the state is `Connected`. -/
def is_connected (s : TcpSocket) : Bool :=
  match s.state with
  | TcpState.Connected _ => true
  | _ => false

/-- `endpoint`: the bound endpoint, when in `Connected` or
`WaitingForConnect`. -/
def endpoint (s : TcpSocket) : Option SocketAddr :=
  match s.state with
  | TcpState.Connected a => some a
  | TcpState.WaitingForConnect a => some a
  | _ => none

/-- `reset`: force the default state, clear the buffer, zero the available
data and forget the last check time. -/
def reset (s : TcpSocket) : TcpSocket :=
  let s := set_state s TcpState.Created
  let s := { s with rx_buffer := RingBuffer.clear s.rx_buffer }
  let s := set_available_data s 0
  { s with last_check_time := none }

/-- `should_update_available_data(ts)`: false when not connected; otherwise
true when no last check time is recorded or the elapsed time since it is at
least `check_interval` (an undefined elapsed time also yields true via
`unwrap_or(true)`); on a true result the last check time is stamped to `ts`. -/
def should_update_available_data (s : TcpSocket) (ts : Nat) : Bool × TcpSocket :=
  if !(is_connected s) then (false, s)
  else
    let should_update :=
      ((s.last_check_time.bind (fun last_check_time =>
          checked_duration_since ts last_check_time)).map
        (fun dur => decide (s.check_interval ≤ dur))).getD true
    if should_update then (true, { s with last_check_time := some ts })
    else (false, s)

/-- `recycle(ts)`: eligible for destruction only in `ShutdownForWrite` with a
read timeout set and elapsed; an undefined elapsed time yields false via
`unwrap_or(false)`. -/
def recycle (s : TcpSocket) (ts : Nat) : Bool :=
  match s.read_timeout with
  | some read_timeout =>
    match s.state with
    | TcpState.Created => false
    | TcpState.WaitingForConnect _ => false
    | TcpState.Connected _ => false
    | TcpState.ShutdownForWrite closed_time =>
      (((checked_duration_since ts closed_time)).map
        (fun dur => decide (read_timeout ≤ dur))).getD false
  | none => false

/-- `closed_by_remote(ts)`: transition to `ShutdownForWrite(ts)` and zero the
available data. -/
def closed_by_remote (s : TcpSocket) (ts : Nat) : TcpSocket :=
  set_available_data (set_state s (TcpState.ShutdownForWrite ts)) 0

/-- `may_recv`: receiving is possible in `Connected` or `ShutdownForWrite`,
or whenever the receive buffer is non-empty. -/
def may_recv (s : TcpSocket) : Bool :=
  match s.state with
  | TcpState.Connected _ => true
  | TcpState.ShutdownForWrite _ => true
  | _ => !(RingBuffer.is_empty s.rx_buffer)

/-- `can_recv`: `may_recv` and the buffer is not full. -/
def can_recv (s : TcpSocket) : Bool :=
  if !(may_recv s) then false
  else !(RingBuffer.is_full s.rx_buffer)

/-- `recv_impl(f)`: fail with `Illegal` unless `may_recv`; otherwise run `f`
on the receive buffer and return its auxiliary result. -/
def recv_impl {R : Type} (s : TcpSocket)
    (f : SocketBuffer → (Nat × R) × SocketBuffer) : Except Error R × TcpSocket :=
  if !(may_recv s) then (Except.error Error.Illegal, s)
  else
    let res := f s.rx_buffer
    (Except.ok res.1.2, { s with rx_buffer := res.2 })

/-- `recv(f)`: `recv_impl` delegating to `dequeue_many_with`. -/
def recv {R : Type} (s : TcpSocket) (f : List Byte → Nat × R) :
    Except Error R × TcpSocket :=
  recv_impl s (fun rx_buffer => RingBuffer.dequeue_many_with rx_buffer f)

/-- `recv_wrapping(f)`: `recv_impl` delegating to
`dequeue_many_with_wrapping`, duplicating the consumed length as the result. -/
def recv_wrapping (s : TcpSocket) (f : List Byte → Option (List Byte) → Nat) :
    Except Error Nat × TcpSocket :=
  recv_impl s (fun rx_buffer =>
    RingBuffer.dequeue_many_with_wrapping rx_buffer (fun a b =>
      let len := f a b
      (len, len)))

/-- `recv_slice(data)`: `recv_impl` delegating to `dequeue_slice`, returning
the count dequeued.  The destination slice is abstracted by its length. -/
def recv_slice (s : TcpSocket) (dataLen : Nat) : Except Error Nat × TcpSocket :=
  recv_impl s (fun rx_buffer =>
    let res := RingBuffer.dequeue_slice rx_buffer dataLen
    ((res.1, res.1), res.2))

/-- `peek(size)`: fail with `Illegal` unless `may_recv`; otherwise the
non-destructive span `get_allocated(0, size)`.  Takes `&mut self` in the
source but never writes, so the socket is returned unchanged. -/
def peek (s : TcpSocket) (size : Nat) : Except Error (List Byte) × TcpSocket :=
  if !(may_recv s) then (Except.error Error.Illegal, s)
  else (Except.ok (RingBuffer.get_allocated s.rx_buffer 0 size), s)

/-- `peek_slice(data)`: copy the peeked span into the destination and return
its length.  The destination slice is abstracted by its length. -/
def peek_slice (s : TcpSocket) (dataLen : Nat) : Except Error Nat × TcpSocket :=
  match peek s dataLen with
  | (Except.error e, s) => (Except.error e, s)
  | (Except.ok buffer, s) => (Except.ok buffer.length, s)

/-- `rx_enqueue_slice(data)`: push newly arrived bytes, returning the count
actually written. -/
def rx_enqueue_slice (s : TcpSocket) (data : List Byte) : Nat × TcpSocket :=
  let res := RingBuffer.enqueue_slice s.rx_buffer data
  (res.1, { s with rx_buffer := res.2 })

/-- `recv_queue`: the number of octets queued in the receive buffer. -/
def recv_queue (s : TcpSocket) : Nat :=
  s.rx_buffer.len

/-- `rx_window`: free space of the receive buffer. -/
def rx_window (s : TcpSocket) : Nat :=
  RingBuffer.window s.rx_buffer

end TcpSocket

section AssocMap

variable {α β : Type} [DecidableEq α]

/-- Lookup in an insertion-ordered association list, modelling
`heapless::FnvIndexMap::get`. -/
def mapGet : List (α × β) → α → Option β
  | [], _ => none
  | (k, v) :: rest, k0 => if k = k0 then some v else mapGet rest k0

/-- Replace the value stored at an existing key, keeping its position,
modelling a write through `FnvIndexMap::get_mut` or the replacing branch of
`FnvIndexMap::insert`. -/
def mapReplace : List (α × β) → α → β → List (α × β)
  | [], _, _ => []
  | (k, v) :: rest, k0, v0 =>
    if k = k0 then (k, v0) :: rest else (k, v) :: mapReplace rest k0 v0

/-- `heapless::FnvIndexMap::insert` with capacity `cap`: replace in place
when the key is present; otherwise append when there is room, and fail
(`none`) when the map is full. -/
def mapInsert (cap : Nat) (m : List (α × β)) (k : α) (v : β) :
    Option (List (α × β)) :=
  if (mapGet m k).isSome then some (mapReplace m k v)
  else if m.length < cap then some (m ++ [(k, v)]) else none

end AssocMap

/-- `UdpListener<N, L>` from `src/udp_listener.rs`: `capN` is the map
capacity `N` and `capL` the bound `L` on each pending-peer queue; queues are
lists with the front first. -/
structure UdpListener where
  capN : Nat
  capL : Nat
  handles : List (SocketHandle × Nat)
  connections : List (Nat × List (SocketHandle × SocketAddr))
deriving DecidableEq

namespace UdpListener

/-- `UdpListener::new()`. -/
def new (capN capL : Nat) : UdpListener :=
  { capN := capN, capL := capL, handles := [], connections := [] }

/-- `bind(handle, port)`: fail when the handle is already bound; otherwise
insert the handle-to-port entry and a fresh empty queue for the port.  As in
the source, a capacity failure of the second insert leaves the first one in
place. -/
def bind (l : UdpListener) (handle : SocketHandle) (port : Nat) :
    Except Unit Unit × UdpListener :=
  if (mapGet l.handles handle).isSome then (Except.error (), l)
  else
    match mapInsert l.capN l.handles handle port with
    | none => (Except.error (), l)
    | some hs =>
      match mapInsert l.capN l.connections port [] with
      | none => (Except.error (), { l with handles := hs })
      | some cs => (Except.ok (), { l with handles := hs, connections := cs })

/-- `incoming(port)`: the pending-peer queue of a port. -/
def incoming (l : UdpListener) (port : Nat) :
    Option (List (SocketHandle × SocketAddr)) :=
  mapGet l.connections port

/-- `is_port_bound(port)`. -/
def is_port_bound (l : UdpListener) (port : Nat) : Bool :=
  (mapGet l.connections port).isSome

/-- `is_bound(handle)`. -/
def is_bound (l : UdpListener) (handle : SocketHandle) : Bool :=
  (mapGet l.handles handle).isSome

/-- `available(handle)`: whether a pending peer is queued on the handle's
port; an error when the handle or its port is unknown. -/
def available (l : UdpListener) (handle : SocketHandle) : Except Unit Bool :=
  match mapGet l.handles handle with
  | none => Except.error ()
  | some port =>
    match mapGet l.connections port with
    | none => Except.error ()
    | some q => Except.ok (!(q.isEmpty))

/-- `peek_remote(handle)`: the front pending (peer handle, peer address)
pair of the handle's port, without removing it. -/
def peek_remote (l : UdpListener) (handle : SocketHandle) :
    Except Unit (SocketHandle × SocketAddr) × UdpListener :=
  match mapGet l.handles handle with
  | none => (Except.error (), l)
  | some port =>
    match mapGet l.connections port with
    | none => (Except.error (), l)
    | some q =>
      match q.head? with
      | none => (Except.error (), l)
      | some front => (Except.ok front, l)

/-- `get_remote(handle)`: translated from the source body, which — like
`peek_remote` — only calls `Queue::peek` and never dequeues, its own doc
comment notwithstanding. -/
def get_remote (l : UdpListener) (handle : SocketHandle) :
    Except Unit (SocketHandle × SocketAddr) × UdpListener :=
  match mapGet l.handles handle with
  | none => (Except.error (), l)
  | some port =>
    match mapGet l.connections port with
    | none => (Except.error (), l)
    | some q =>
      match q.head? with
      | none => (Except.error (), l)
      | some front => (Except.ok front, l)

/-- `get_outgoing(handle, addr)`: when the front of the handle's port queue
carries exactly `addr`, dequeue it and return its peer handle; otherwise
`none` with the listener unchanged. -/
def get_outgoing (l : UdpListener) (handle : SocketHandle) (addr : SocketAddr) :
    Option SocketHandle × UdpListener :=
  match mapGet l.handles handle with
  | none => (none, l)
  | some port =>
    match mapGet l.connections port with
    | none => (none, l)
    | some q =>
      match q.head? with
      | none => (none, l)
      | some front =>
        if front.2 = addr then
          (some front.1,
            { l with connections := mapReplace l.connections port q.tail })
        else (none, l)

/-- Modelled from the spec: `outgoing_connection(handle, addr)` is not among
the given source files; per section 4.5 it registers a logical outbound
association for `addr` that a later `get_outgoing` resolves back to the
initiating handle, with capacity-bounded insertion.  In the queue-based
listener of the source an association is an entry on the pending queue of a
bound port, so the registration enqueues `(h, addr)` onto the queue of
`server`'s port, failing when the queue is at its bound depth. -/
def outgoing_connection (l : UdpListener) (server h : SocketHandle)
    (addr : SocketAddr) : Except Unit Unit × UdpListener :=
  match mapGet l.handles server with
  | none => (Except.error (), l)
  | some port =>
    match mapGet l.connections port with
    | none => (Except.error (), l)
    | some q =>
      if l.capL ≤ q.length then (Except.error (), l)
      else
        (Except.ok (),
          { l with connections := mapReplace l.connections port (q ++ [(h, addr)]) })

end UdpListener

theorem mapGet_mapReplace_self {α β : Type} [DecidableEq α]
    (m : List (α × β)) (k : α) (v : β) (h : (mapGet m k).isSome = true) :
    mapGet (mapReplace m k v) k = some v := by
  induction m with
  | nil => simp [mapGet] at h
  | cons a rest ih =>
    obtain ⟨a1, a2⟩ := a
    by_cases hk : a1 = k
    · simp [mapReplace, mapGet, hk]
    · simp only [mapReplace, mapGet, if_neg hk] at h ⊢
      exact ih h

theorem mapGet_append_right {α β : Type} [DecidableEq α]
    (m : List (α × β)) (k : α) (v : β) (h : mapGet m k = none) :
    mapGet (m ++ [(k, v)]) k = some v := by
  induction m with
  | nil => simp [mapGet]
  | cons a rest ih =>
    obtain ⟨a1, a2⟩ := a
    by_cases hk : a1 = k
    · simp [mapGet, hk] at h
    · simp only [List.cons_append, mapGet, if_neg hk] at h ⊢
      exact ih h

theorem mapGet_append_left {α β : Type} [DecidableEq α]
    (m msuf : List (α × β)) (k : α) (v : β) (h : mapGet m k = some v) :
    mapGet (m ++ msuf) k = some v := by
  induction m with
  | nil => simp [mapGet] at h
  | cons a rest ih =>
    obtain ⟨a1, a2⟩ := a
    by_cases hk : a1 = k
    · simp only [List.cons_append, mapGet, if_pos hk] at h ⊢
      exact h
    · simp only [List.cons_append, mapGet, if_neg hk] at h ⊢
      exact ih h

/-- Claim C6: `bind(h, p)` fails and leaves the listener unchanged when `h`
is already bound; when `h` is unbound and capacity permits, `bind(h, p)`
succeeds, records `h` as bound (`is_bound h` becomes true) and allocates an
empty pending-peer queue for `p`, so `is_port_bound p` holds and
`available h` reports `Ok false`. -/
theorem c6_bind_spec (l : UdpListener) (h : SocketHandle) (p : Nat) :
    ((mapGet l.handles h).isSome = true →
      UdpListener.bind l h p = (Except.error (), l))
    ∧ (mapGet l.handles h = none → l.handles.length < l.capN →
        ((mapGet l.connections p).isSome = true ∨ l.connections.length < l.capN) →
        (UdpListener.bind l h p).1 = Except.ok ()
        ∧ UdpListener.is_bound (UdpListener.bind l h p).2 h = true
        ∧ UdpListener.is_port_bound (UdpListener.bind l h p).2 p = true
        ∧ mapGet (UdpListener.bind l h p).2.connections p = some []
        ∧ UdpListener.available (UdpListener.bind l h p).2 h = Except.ok false) := by
  constructor
  · intro hsome
    simp [UdpListener.bind, hsome]
  · intro hnone hcap hconn
    have hins : mapInsert l.capN l.handles h p = some (l.handles ++ [(h, p)]) := by
      simp [mapInsert, hnone, hcap]
    have hget : mapGet (l.handles ++ [(h, p)]) h = some p :=
      mapGet_append_right _ _ _ hnone
    obtain ⟨cs, hcs, hcsget⟩ :
        ∃ cs, mapInsert l.capN l.connections p
            ([] : List (SocketHandle × SocketAddr)) = some cs
          ∧ mapGet cs p = some [] := by
      by_cases hc : (mapGet l.connections p).isSome = true
      · exact ⟨mapReplace l.connections p [], by simp [mapInsert, hc],
          mapGet_mapReplace_self _ _ _ hc⟩
      · have hcnone : mapGet l.connections p = none := by
          cases hcg : mapGet l.connections p
          · rfl
          · rw [hcg] at hc; simp at hc
        rcases hconn with hc' | hlen
        · exact absurd hc' hc
        · exact ⟨l.connections ++ [(p, [])], by simp [mapInsert, hcnone, hlen],
            mapGet_append_right _ _ _ hcnone⟩
    have hb : UdpListener.bind l h p =
        (Except.ok (), { l with handles := l.handles ++ [(h, p)], connections := cs }) := by
      simp [UdpListener.bind, hnone, hins, hcs]
    rw [hb]
    refine ⟨rfl, ?_, ?_, hcsget, ?_⟩
    · simp [UdpListener.is_bound, hget]
    · simp [UdpListener.is_port_bound, hcsget]
    · simp [UdpListener.available, hget, hcsget]

/-- Witness for C6 at a concrete input: binding handle 3 to port 80 on a
fresh listener of capacity 2. -/
theorem c6_bind_spec_witness :
    mapGet (UdpListener.new 2 2).handles (SocketHandle.mk 3) = none
    ∧ ((UdpListener.bind (UdpListener.new 2 2) (SocketHandle.mk 3) 80).1 = Except.ok ()
      ∧ UdpListener.is_bound
          (UdpListener.bind (UdpListener.new 2 2) (SocketHandle.mk 3) 80).2
          (SocketHandle.mk 3) = true
      ∧ UdpListener.is_port_bound
          (UdpListener.bind (UdpListener.new 2 2) (SocketHandle.mk 3) 80).2 80 = true
      ∧ mapGet (UdpListener.bind (UdpListener.new 2 2) (SocketHandle.mk 3) 80).2.connections 80
          = some []
      ∧ UdpListener.available
          (UdpListener.bind (UdpListener.new 2 2) (SocketHandle.mk 3) 80).2
          (SocketHandle.mk 3) = Except.ok false) :=
  ⟨rfl, (c6_bind_spec (UdpListener.new 2 2) (SocketHandle.mk 3) 80).2 rfl
    (by decide) (Or.inr (by decide))⟩

/-- Claim C9: after `h1` is bound to `p`, binding a distinct unbound handle
`h2` to the same `p` also succeeds (only the handle is checked for a prior
binding) and replaces `p`'s pending-peer queue by a fresh empty one,
discarding whatever was pending; afterwards both handles are bound and both
map to `p`. -/
theorem c9_rebind_port_spec (l : UdpListener) (h1 h2 : SocketHandle) (p : Nat)
    (q : List (SocketHandle × SocketAddr))
    (_hne : h1 ≠ h2)
    (hb1 : mapGet l.handles h1 = some p)
    (hq : mapGet l.connections p = some q)
    (hh2 : mapGet l.handles h2 = none)
    (hcap : l.handles.length < l.capN) :
    (UdpListener.bind l h2 p).1 = Except.ok ()
    ∧ UdpListener.is_bound (UdpListener.bind l h2 p).2 h1 = true
    ∧ UdpListener.is_bound (UdpListener.bind l h2 p).2 h2 = true
    ∧ mapGet (UdpListener.bind l h2 p).2.handles h1 = some p
    ∧ mapGet (UdpListener.bind l h2 p).2.handles h2 = some p
    ∧ mapGet (UdpListener.bind l h2 p).2.connections p = some [] := by
  have hins : mapInsert l.capN l.handles h2 p = some (l.handles ++ [(h2, p)]) := by
    simp [mapInsert, hh2, hcap]
  have hcsome : (mapGet l.connections p).isSome = true := by simp [hq]
  have hcs : mapInsert l.capN l.connections p
      ([] : List (SocketHandle × SocketAddr)) = some (mapReplace l.connections p []) := by
    simp [mapInsert, hcsome]
  have hb : UdpListener.bind l h2 p =
      (Except.ok (),
        { l with handles := l.handles ++ [(h2, p)],
                 connections := mapReplace l.connections p [] }) := by
    simp [UdpListener.bind, hh2, hins, hcs]
  have hg1 : mapGet (l.handles ++ [(h2, p)]) h1 = some p :=
    mapGet_append_left _ _ _ _ hb1
  have hg2 : mapGet (l.handles ++ [(h2, p)]) h2 = some p :=
    mapGet_append_right _ _ _ hh2
  have hgq : mapGet (mapReplace l.connections p
      ([] : List (SocketHandle × SocketAddr))) p = some [] :=
    mapGet_mapReplace_self _ _ _ hcsome
  rw [hb]
  exact ⟨rfl, by simp [UdpListener.is_bound, hg1], by simp [UdpListener.is_bound, hg2],
    hg1, hg2, hgq⟩

/-- The concrete listener of the C9 witness: handle 0 bound to port 80 with
one peer pending on the port's queue. -/
def listener9 : UdpListener :=
  { capN := 4, capL := 4
    handles := [(SocketHandle.mk 0, 80)]
    connections := [(80, [(SocketHandle.mk 5, SocketAddr.mk 55)])] }

/-- Witness for C9 at a concrete input: rebinding port 80 to handle 1
discards the pending peer. -/
theorem c9_rebind_port_spec_witness :
    (SocketHandle.mk 0 ≠ SocketHandle.mk 1
      ∧ mapGet listener9.handles (SocketHandle.mk 0) = some 80
      ∧ mapGet listener9.connections 80 = some [(SocketHandle.mk 5, SocketAddr.mk 55)]
      ∧ mapGet listener9.handles (SocketHandle.mk 1) = none
      ∧ listener9.handles.length < listener9.capN)
    ∧ ((UdpListener.bind listener9 (SocketHandle.mk 1) 80).1 = Except.ok ()
      ∧ UdpListener.is_bound (UdpListener.bind listener9 (SocketHandle.mk 1) 80).2
          (SocketHandle.mk 0) = true
      ∧ UdpListener.is_bound (UdpListener.bind listener9 (SocketHandle.mk 1) 80).2
          (SocketHandle.mk 1) = true
      ∧ mapGet (UdpListener.bind listener9 (SocketHandle.mk 1) 80).2.handles
          (SocketHandle.mk 0) = some 80
      ∧ mapGet (UdpListener.bind listener9 (SocketHandle.mk 1) 80).2.handles
          (SocketHandle.mk 1) = some 80
      ∧ mapGet (UdpListener.bind listener9 (SocketHandle.mk 1) 80).2.connections 80
          = some []) :=
  ⟨⟨by decide, rfl, rfl, rfl, by decide⟩,
    c9_rebind_port_spec listener9 (SocketHandle.mk 0) (SocketHandle.mk 1) 80
      [(SocketHandle.mk 5, SocketAddr.mk 55)] (by decide) rfl rfl rfl (by decide)⟩

/-- The concrete listener of the C1 failing input: handle 0 bound to port
80, whose queue holds the two arrivals (peer 1, address 11) then (peer 2,
address 22). -/
def listener1 : UdpListener :=
  { capN := 4, capL := 4
    handles := [(SocketHandle.mk 0, 80)]
    connections := [(80, [(SocketHandle.mk 1, SocketAddr.mk 11),
                          (SocketHandle.mk 2, SocketAddr.mk 22)])] }

/-- Claim C1, evaluated at the failing input: `get_remote` (the accept
operation) returns the front pending pair but does NOT remove it — the
listener is unchanged, the queue still holds both arrivals, and a second
call returns the first pair again instead of the second, contradicting the
claim and the function's own doc comment.  The failure branches of the claim
(no peer pending, handle not bound) do hold, as the last two conjuncts
show. -/
theorem c1_get_remote_does_not_dequeue :
    (UdpListener.get_remote listener1 (SocketHandle.mk 0)).1
      = Except.ok (SocketHandle.mk 1, SocketAddr.mk 11)
    ∧ (UdpListener.get_remote listener1 (SocketHandle.mk 0)).2 = listener1
    ∧ (UdpListener.get_remote
        (UdpListener.get_remote listener1 (SocketHandle.mk 0)).2
        (SocketHandle.mk 0)).1
      = Except.ok (SocketHandle.mk 1, SocketAddr.mk 11)
    ∧ mapGet (UdpListener.get_remote listener1 (SocketHandle.mk 0)).2.connections 80
      = some [(SocketHandle.mk 1, SocketAddr.mk 11),
              (SocketHandle.mk 2, SocketAddr.mk 22)]
    ∧ (UdpListener.get_remote (UdpListener.new 4 4) (SocketHandle.mk 0)).1
      = Except.error ()
    ∧ (UdpListener.get_remote
        { listener1 with connections := [(80, [])] } (SocketHandle.mk 0)).1
      = Except.error () :=
  ⟨rfl, rfl, rfl, rfl, rfl, rfl⟩

/-- Claim C5: when the front of the pending queue of `server`'s port is the
registered association `(h, addr)`, `get_outgoing` resolves `addr` to `h`
and removes the association (one-shot); and a registration
(`outgoing_connection`, modelled from the spec) into an empty queue followed
immediately by `get_outgoing` yields exactly the registered handle. -/
theorem c5_get_outgoing_spec (l : UdpListener) (server h : SocketHandle)
    (addr : SocketAddr) (port : Nat) (rest : List (SocketHandle × SocketAddr))
    (hs : mapGet l.handles server = some port)
    (hq : mapGet l.connections port = some ((h, addr) :: rest)) :
    (UdpListener.get_outgoing l server addr).1 = some h
    ∧ (UdpListener.get_outgoing l server addr).2.handles = l.handles
    ∧ mapGet (UdpListener.get_outgoing l server addr).2.connections port = some rest
    ∧ (∀ l0 : UdpListener, ∀ h0 : SocketHandle,
        0 < l0.capL →
        mapGet l0.handles server = some port →
        mapGet l0.connections port = some [] →
        (UdpListener.get_outgoing
          (UdpListener.outgoing_connection l0 server h0 addr).2 server addr).1
          = some h0) := by
  have hqs : (mapGet l.connections port).isSome = true := by simp [hq]
  have hmain : UdpListener.get_outgoing l server addr =
      (some h, { l with connections := mapReplace l.connections port rest }) := by
    simp [UdpListener.get_outgoing, hs, hq]
  refine ⟨by rw [hmain], by rw [hmain], ?_, ?_⟩
  · rw [hmain]
    exact mapGet_mapReplace_self _ _ _ hqs
  · intro l0 h0 hcapL hs0 hq0
    have hq0s : (mapGet l0.connections port).isSome = true := by simp [hq0]
    have hreg : UdpListener.outgoing_connection l0 server h0 addr =
        (Except.ok (),
          { l0 with connections := mapReplace l0.connections port [(h0, addr)] }) := by
      have hne0 : ¬ l0.capL = 0 := Nat.pos_iff_ne_zero.mp hcapL
      simp [UdpListener.outgoing_connection, hs0, hq0, hne0]
    rw [hreg]
    have hq1 : mapGet (mapReplace l0.connections port
        ([(h0, addr)] : List (SocketHandle × SocketAddr))) port = some [(h0, addr)] :=
      mapGet_mapReplace_self _ _ _ hq0s
    simp [UdpListener.get_outgoing, hs0, hq1]

/-- The concrete listener of the C5 witness. -/
def listener5 : UdpListener :=
  { capN := 4, capL := 4
    handles := [(SocketHandle.mk 0, 80)]
    connections := [(80, [(SocketHandle.mk 1, SocketAddr.mk 11),
                          (SocketHandle.mk 2, SocketAddr.mk 22)])] }

/-- Witness for C5 at a concrete input: the front association (peer 1,
address 11) is resolved and removed. -/
theorem c5_get_outgoing_spec_witness :
    (mapGet listener5.handles (SocketHandle.mk 0) = some 80
      ∧ mapGet listener5.connections 80
        = some [(SocketHandle.mk 1, SocketAddr.mk 11),
                (SocketHandle.mk 2, SocketAddr.mk 22)])
    ∧ (UdpListener.get_outgoing listener5 (SocketHandle.mk 0) (SocketAddr.mk 11)).1
      = some (SocketHandle.mk 1)
    ∧ mapGet (UdpListener.get_outgoing listener5 (SocketHandle.mk 0)
        (SocketAddr.mk 11)).2.connections 80
      = some [(SocketHandle.mk 2, SocketAddr.mk 22)] :=
  ⟨⟨rfl, rfl⟩,
    (c5_get_outgoing_spec listener5 (SocketHandle.mk 0) (SocketHandle.mk 1)
      (SocketAddr.mk 11) 80 [(SocketHandle.mk 2, SocketAddr.mk 22)] rfl rfl).1,
    (c5_get_outgoing_spec listener5 (SocketHandle.mk 0) (SocketHandle.mk 1)
      (SocketAddr.mk 11) 80 [(SocketHandle.mk 2, SocketAddr.mk 22)] rfl rfl).2.2.1⟩

/-- Claim C7: in any state, `closed_by_remote(now)` sets the state to
`ShutdownForWrite(now)` and zeroes the available data while leaving the
receive buffer untouched, so `recv_queue` and the buffered bytes are exactly
as before. -/
theorem c7_closed_by_remote_frame (s : TcpSocket) (ts : Nat) :
    (TcpSocket.closed_by_remote s ts).state = TcpState.ShutdownForWrite ts
    ∧ (TcpSocket.closed_by_remote s ts).available_data = 0
    ∧ (TcpSocket.closed_by_remote s ts).rx_buffer = s.rx_buffer
    ∧ TcpSocket.recv_queue (TcpSocket.closed_by_remote s ts)
        = TcpSocket.recv_queue s :=
  ⟨rfl, rfl, rfl, rfl⟩

/-- Claim C8: `reset()` always succeeds — it is a total function into
`TcpSocket`, with no error case — and afterwards the state is `Created`, the
receive buffer is empty, the available data is zero and the last-check
timestamp is cleared, so a subsequent `should_update_available_data` in the
`Connected` state returns true. -/
theorem c8_reset_spec (s : TcpSocket) :
    (TcpSocket.reset s).state = TcpState.Created
    ∧ TcpSocket.recv_queue (TcpSocket.reset s) = 0
    ∧ (TcpSocket.reset s).available_data = 0
    ∧ (TcpSocket.reset s).last_check_time = none
    ∧ (∀ (a : SocketAddr) (ts : Nat),
        (TcpSocket.should_update_available_data
          (TcpSocket.set_state (TcpSocket.reset s) (TcpState.Connected a)) ts).1
          = true) :=
  ⟨rfl, rfl, rfl, rfl, fun _ _ => rfl⟩

/-- Claim C2: `may_recv()` holds exactly in `Connected` or
`ShutdownForWrite` or when the receive buffer is non-empty; each of `recv`,
`recv_slice`, `recv_wrapping`, `peek` and `peek_slice` fails with `Illegal`
exactly when `may_recv()` is false, and otherwise succeeds by delegating to
the corresponding receive-buffer operation. -/
theorem c2_recv_legality {R : Type} (s : TcpSocket) (k : Nat)
    (f : List Byte → Nat × R) (g : List Byte → Option (List Byte) → Nat) :
    (TcpSocket.may_recv s = true ↔
      ((∃ a, s.state = TcpState.Connected a)
        ∨ (∃ t, s.state = TcpState.ShutdownForWrite t)
        ∨ s.rx_buffer.len ≠ 0))
    ∧ ((TcpSocket.recv s f).1 = Except.error Error.Illegal
        ↔ TcpSocket.may_recv s = false)
    ∧ ((TcpSocket.recv_slice s k).1 = Except.error Error.Illegal
        ↔ TcpSocket.may_recv s = false)
    ∧ ((TcpSocket.recv_wrapping s g).1 = Except.error Error.Illegal
        ↔ TcpSocket.may_recv s = false)
    ∧ ((TcpSocket.peek s k).1 = Except.error Error.Illegal
        ↔ TcpSocket.may_recv s = false)
    ∧ ((TcpSocket.peek_slice s k).1 = Except.error Error.Illegal
        ↔ TcpSocket.may_recv s = false)
    ∧ (TcpSocket.may_recv s = true →
        TcpSocket.recv s f
          = (Except.ok (RingBuffer.dequeue_many_with s.rx_buffer f).1.2,
             { s with rx_buffer := (RingBuffer.dequeue_many_with s.rx_buffer f).2 })
        ∧ (TcpSocket.recv_slice s k).1
          = Except.ok (RingBuffer.dequeue_slice s.rx_buffer k).1
        ∧ (TcpSocket.recv_wrapping s g).1
          = Except.ok (g (RingBuffer.contiguousSpan s.rx_buffer)
              (if s.rx_buffer.capacity - s.rx_buffer.read < s.rx_buffer.len then
                 some (s.rx_buffer.storage.take
                   (s.rx_buffer.len - (s.rx_buffer.capacity - s.rx_buffer.read)))
               else none))
        ∧ TcpSocket.peek s k
          = (Except.ok (RingBuffer.get_allocated s.rx_buffer 0 k), s)
        ∧ (TcpSocket.peek_slice s k).1
          = Except.ok (RingBuffer.get_allocated s.rx_buffer 0 k).length) := by
  have hchar : TcpSocket.may_recv s = true ↔
      ((∃ a, s.state = TcpState.Connected a)
        ∨ (∃ t, s.state = TcpState.ShutdownForWrite t)
        ∨ s.rx_buffer.len ≠ 0) := by
    cases hs : s.state <;>
      simp [TcpSocket.may_recv, hs, RingBuffer.is_empty]
  rcases Bool.eq_false_or_eq_true (TcpSocket.may_recv s) with hm | hm
  · refine ⟨hchar, ?_, ?_, ?_, ?_, ?_, ?_⟩
    · simp [TcpSocket.recv, TcpSocket.recv_impl, hm]
    · simp [TcpSocket.recv_slice, TcpSocket.recv_impl, hm]
    · simp [TcpSocket.recv_wrapping, TcpSocket.recv_impl, hm]
    · simp [TcpSocket.peek, hm]
    · simp [TcpSocket.peek_slice, TcpSocket.peek, hm]
    · intro _
      refine ⟨?_, ?_, ?_, ?_, ?_⟩
      · simp [TcpSocket.recv, TcpSocket.recv_impl, hm]
      · simp [TcpSocket.recv_slice, TcpSocket.recv_impl, hm]
      · simp [TcpSocket.recv_wrapping, TcpSocket.recv_impl, hm,
          RingBuffer.dequeue_many_with_wrapping]
      · simp [TcpSocket.peek, hm]
      · simp [TcpSocket.peek_slice, TcpSocket.peek, hm]
  · refine ⟨hchar, ?_, ?_, ?_, ?_, ?_, ?_⟩
    · simp [TcpSocket.recv, TcpSocket.recv_impl, hm]
    · simp [TcpSocket.recv_slice, TcpSocket.recv_impl, hm]
    · simp [TcpSocket.recv_wrapping, TcpSocket.recv_impl, hm]
    · simp [TcpSocket.peek, hm]
    · simp [TcpSocket.peek_slice, TcpSocket.peek, hm]
    · intro htrue
      simp [hm] at htrue

/-- The concrete socket of the C2 witness: freshly created, then connected. -/
def socket2 : TcpSocket :=
  TcpSocket.set_state (TcpSocket.new 0 4) (TcpState.Connected (SocketAddr.mk 7))

/-- Witness for C2 at a concrete input: a connected socket, where `recv`
succeeds by delegating to `dequeue_many_with`. -/
theorem c2_recv_legality_witness :
    TcpSocket.may_recv socket2 = true
    ∧ TcpSocket.recv socket2 (fun _ => (0, 0))
      = (Except.ok (RingBuffer.dequeue_many_with socket2.rx_buffer (fun _ => (0, 0))).1.2,
         { socket2 with
           rx_buffer := (RingBuffer.dequeue_many_with socket2.rx_buffer
             (fun _ => (0, 0))).2 }) :=
  ⟨rfl, ((c2_recv_legality socket2 3 (fun _ => (0, 0)) (fun _ _ => 0)).2.2.2.2.2.2
    rfl).1⟩

/-- Claim C10: whenever `may_recv()` is false, each of `recv`, `recv_slice`,
`recv_wrapping`, `peek` and `peek_slice` returns `Err(Illegal)` and leaves
the socket completely unchanged. -/
theorem c10_illegal_frame {R : Type} (s : TcpSocket) (k : Nat)
    (f : List Byte → Nat × R) (g : List Byte → Option (List Byte) → Nat)
    (h : TcpSocket.may_recv s = false) :
    TcpSocket.recv s f = (Except.error Error.Illegal, s)
    ∧ TcpSocket.recv_slice s k = (Except.error Error.Illegal, s)
    ∧ TcpSocket.recv_wrapping s g = (Except.error Error.Illegal, s)
    ∧ TcpSocket.peek s k = (Except.error Error.Illegal, s)
    ∧ TcpSocket.peek_slice s k = (Except.error Error.Illegal, s) := by
  refine ⟨?_, ?_, ?_, ?_, ?_⟩ <;>
    simp [TcpSocket.recv, TcpSocket.recv_slice, TcpSocket.recv_wrapping,
      TcpSocket.peek, TcpSocket.peek_slice, TcpSocket.recv_impl, h]

/-- Witness for C10 at a concrete input: a freshly created socket (state
`Created`, empty buffer) rejects `recv` and `peek` unchanged. -/
theorem c10_illegal_frame_witness :
    TcpSocket.may_recv (TcpSocket.new 0 4) = false
    ∧ TcpSocket.recv (TcpSocket.new 0 4) (fun _ => (0, 0))
      = (Except.error Error.Illegal, TcpSocket.new 0 4)
    ∧ TcpSocket.peek (TcpSocket.new 0 4) 3
      = (Except.error Error.Illegal, TcpSocket.new 0 4) :=
  ⟨rfl,
    (c10_illegal_frame (TcpSocket.new 0 4) 3 (fun _ => ((0 : Nat), (0 : Nat)))
      (fun _ _ => 0) rfl).1,
    (c10_illegal_frame (TcpSocket.new 0 4) 3 (fun _ => ((0 : Nat), (0 : Nat)))
      (fun _ _ => 0) rfl).2.2.2.1⟩

/-- Claim C4: `recycle(ts)` is false in `Created`, `WaitingForConnect` and
`Connected`, and whenever `read_timeout` is unset; in `ShutdownForWrite(t0)`
with `read_timeout = rt` set it is true exactly when `t0 + rt ≤ ts`, so the
socket is not recyclable at `t0 + rt − 1` and is recyclable at `t0 + rt`. -/
theorem c4_recycle_spec (s : TcpSocket) (ts : Nat) :
    (s.read_timeout = none → TcpSocket.recycle s ts = false)
    ∧ (s.state = TcpState.Created → TcpSocket.recycle s ts = false)
    ∧ (∀ a, s.state = TcpState.WaitingForConnect a → TcpSocket.recycle s ts = false)
    ∧ (∀ a, s.state = TcpState.Connected a → TcpSocket.recycle s ts = false)
    ∧ (∀ t0 rt, s.state = TcpState.ShutdownForWrite t0 → s.read_timeout = some rt →
        (TcpSocket.recycle s ts = true ↔ t0 + rt ≤ ts))
    ∧ (∀ t0 rt, s.state = TcpState.ShutdownForWrite t0 → s.read_timeout = some rt →
        1 ≤ rt →
        TcpSocket.recycle s (t0 + rt - 1) = false
        ∧ TcpSocket.recycle s (t0 + rt) = true) := by
  have hiff : ∀ (ts0 t0 rt : Nat), s.state = TcpState.ShutdownForWrite t0 →
      s.read_timeout = some rt →
      (TcpSocket.recycle s ts0 = true ↔ t0 + rt ≤ ts0) := by
    intro ts0 t0 rt hst hrt
    by_cases hle : t0 ≤ ts0
    · simp [TcpSocket.recycle, hrt, hst, checked_duration_since, hle]
      omega
    · simp [TcpSocket.recycle, hrt, hst, checked_duration_since, hle]
      omega
  refine ⟨?_, ?_, ?_, ?_, fun t0 rt hst hrt => hiff ts t0 rt hst hrt, ?_⟩
  · intro hrt
    simp [TcpSocket.recycle, hrt]
  · intro hst
    cases hrt : s.read_timeout <;> simp [TcpSocket.recycle, hrt, hst]
  · intro a hst
    cases hrt : s.read_timeout <;> simp [TcpSocket.recycle, hrt, hst]
  · intro a hst
    cases hrt : s.read_timeout <;> simp [TcpSocket.recycle, hrt, hst]
  · intro t0 rt hst hrt h1
    constructor
    · have h2 := hiff (t0 + rt - 1) t0 rt hst hrt
      cases hrc : TcpSocket.recycle s (t0 + rt - 1)
      · rfl
      · exfalso
        have := h2.mp hrc
        omega
    · exact (hiff (t0 + rt) t0 rt hst hrt).mpr (by omega)

/-- The concrete socket of the C4 witness: closed by the remote at time 100,
with the default 15-tick read timeout. -/
def socket4 : TcpSocket :=
  { TcpSocket.new 0 4 with state := TcpState.ShutdownForWrite 100 }

/-- Witness for C4 at a concrete input: shut down at 100 with read timeout
15, the socket is not recyclable at 114 and recyclable at 115. -/
theorem c4_recycle_spec_witness :
    socket4.state = TcpState.ShutdownForWrite 100
    ∧ socket4.read_timeout = some 15
    ∧ TcpSocket.recycle socket4 114 = false
    ∧ TcpSocket.recycle socket4 115 = true :=
  ⟨rfl, rfl,
    ((c4_recycle_spec socket4 0).2.2.2.2.2 100 15 rfl rfl (by decide)).1,
    ((c4_recycle_spec socket4 0).2.2.2.2.2 100 15 rfl rfl (by decide)).2⟩

/-- The concrete socket of the C3 counterexample: connected, last checked at
time 10, with the default check interval of 15. -/
def socket3 : TcpSocket :=
  { TcpSocket.new 0 4 with
    state := TcpState.Connected (SocketAddr.mk 0)
    last_check_time := some 10 }

/-- Claim C3, counterexample to the claim as stated: a `Connected` socket
whose recorded last-check time is 10 and whose `check_interval` is 15,
polled at `now = 0`.  Now minus the last-check time is below
`check_interval` on either reading of the subtraction (truncated to 0 in
`Nat`, −10 in `Int`), so the claimed equivalence demands a false result —
yet the call returns true, because `checked_duration_since` yields no
duration and the code maps that to true via `unwrap_or(true)`. -/
theorem c3_claim_counterexample :
    (TcpSocket.should_update_available_data socket3 0).1 = true
    ∧ socket3.state = TcpState.Connected (SocketAddr.mk 0)
    ∧ socket3.last_check_time = some 10
    ∧ socket3.check_interval = 15
    ∧ ¬ (socket3.check_interval ≤ 0 - 10)
    ∧ ¬ ((15 : Int) ≤ (0 : Int) - 10) := by
  refine ⟨rfl, rfl, rfl, rfl, by decide, by decide⟩

/-- Claim C3 as amended: a socket not in the `Connected` state yields false
(and is unchanged); a `Connected` socket yields true iff no last-check time
is recorded, or now is earlier than the recorded last-check time (the
elapsed duration is undefined and the code polls), or now minus the
last-check time is at least `check_interval`; exactly on a true result now
is stamped as the new last-check time.  Hence, for a second call not earlier
than the first: two `Connected`-state calls less than `check_interval` apart
return true then false, while calls spaced at least `check_interval` apart
both return true. -/
theorem c3_should_update_amended (s : TcpSocket) (ts : Nat) :
    (TcpSocket.is_connected s = false →
      TcpSocket.should_update_available_data s ts = (false, s))
    ∧ (TcpSocket.is_connected s = true →
        ((TcpSocket.should_update_available_data s ts).1 = true ↔
          (s.last_check_time = none
            ∨ ∃ t, s.last_check_time = some t
                ∧ (ts < t ∨ s.check_interval ≤ ts - t)))
        ∧ ((TcpSocket.should_update_available_data s ts).1 = true →
            (TcpSocket.should_update_available_data s ts).2
              = { s with last_check_time := some ts })
        ∧ ((TcpSocket.should_update_available_data s ts).1 = false →
            (TcpSocket.should_update_available_data s ts).2 = s))
    ∧ (∀ ts' : Nat, TcpSocket.is_connected s = true →
        (TcpSocket.should_update_available_data s ts).1 = true →
        ts ≤ ts' → ts' - ts < s.check_interval →
        (TcpSocket.should_update_available_data
          (TcpSocket.should_update_available_data s ts).2 ts').1 = false)
    ∧ (∀ ts' : Nat, TcpSocket.is_connected s = true →
        (TcpSocket.should_update_available_data s ts).1 = true →
        ts ≤ ts' → s.check_interval ≤ ts' - ts →
        (TcpSocket.should_update_available_data
          (TcpSocket.should_update_available_data s ts).2 ts').1 = true) := by
  have haux : ∀ (s0 : TcpSocket) (ts0 : Nat), TcpSocket.is_connected s0 = true →
      ((TcpSocket.should_update_available_data s0 ts0).1 = true ↔
        (s0.last_check_time = none
          ∨ ∃ t, s0.last_check_time = some t
              ∧ (ts0 < t ∨ s0.check_interval ≤ ts0 - t)))
      ∧ ((TcpSocket.should_update_available_data s0 ts0).1 = true →
          (TcpSocket.should_update_available_data s0 ts0).2
            = { s0 with last_check_time := some ts0 })
      ∧ ((TcpSocket.should_update_available_data s0 ts0).1 = false →
          (TcpSocket.should_update_available_data s0 ts0).2 = s0) := by
    intro s0 ts0 hc
    cases hlct : s0.last_check_time with
    | none =>
      refine ⟨?_, ?_, ?_⟩
      · simp [TcpSocket.should_update_available_data, hc, hlct]
      · intro _
        simp [TcpSocket.should_update_available_data, hc, hlct]
      · intro hfalse
        simp [TcpSocket.should_update_available_data, hc, hlct] at hfalse
    | some t =>
      by_cases hle : t ≤ ts0
      · by_cases hint : s0.check_interval ≤ ts0 - t
        · refine ⟨?_, ?_, ?_⟩
          · simp [TcpSocket.should_update_available_data, hc, hlct,
              checked_duration_since, hle, hint]
          · intro _
            simp [TcpSocket.should_update_available_data, hc, hlct,
              checked_duration_since, hle, hint]
          · intro hfalse
            simp [TcpSocket.should_update_available_data, hc, hlct,
              checked_duration_since, hle, hint] at hfalse
        · refine ⟨?_, ?_, ?_⟩
          · simp [TcpSocket.should_update_available_data, hc, hlct,
              checked_duration_since, hle, hint]
          · intro htrue
            simp [TcpSocket.should_update_available_data, hc, hlct,
              checked_duration_since, hle, hint] at htrue
          · intro _
            simp [TcpSocket.should_update_available_data, hc, hlct,
              checked_duration_since, hle, hint]
      · have hlt : ts0 < t := lt_of_not_le hle
        refine ⟨?_, ?_, ?_⟩
        · simp [TcpSocket.should_update_available_data, hc, hlct,
            checked_duration_since, hle, hlt]
        · intro _
          simp [TcpSocket.should_update_available_data, hc, hlct,
            checked_duration_since, hle]
        · intro hfalse
          simp [TcpSocket.should_update_available_data, hc, hlct,
            checked_duration_since, hle] at hfalse
  have hfalse : TcpSocket.is_connected s = false →
      TcpSocket.should_update_available_data s ts = (false, s) := by
    intro hc
    simp [TcpSocket.should_update_available_data, hc]
  refine ⟨hfalse, fun hc => haux s ts hc, ?_, ?_⟩
  · intro ts' hc h1 hts hlt
    have hstamp := (haux s ts hc).2.1 h1
    rw [hstamp]
    have hc2 : TcpSocket.is_connected { s with last_check_time := some ts } = true := hc
    have h3 : (TcpSocket.should_update_available_data
        { s with last_check_time := some ts } ts').1 = true
        ↔ (ts' < ts ∨ s.check_interval ≤ ts' - ts) := by
      rw [(haux { s with last_check_time := some ts } ts' hc2).1]
      simp
    cases hb : (TcpSocket.should_update_available_data
        { s with last_check_time := some ts } ts').1
    · rfl
    · exfalso
      rcases h3.mp hb with h4 | h4 <;> omega
  · intro ts' hc h1 hts hge
    have hstamp := (haux s ts hc).2.1 h1
    rw [hstamp]
    have hc2 : TcpSocket.is_connected { s with last_check_time := some ts } = true := hc
    have h3 : (TcpSocket.should_update_available_data
        { s with last_check_time := some ts } ts').1 = true
        ↔ (ts' < ts ∨ s.check_interval ≤ ts' - ts) := by
      rw [(haux { s with last_check_time := some ts } ts' hc2).1]
      simp
    exact h3.mpr (Or.inr hge)

/-- The concrete socket of the C3 witness: connected, never yet polled. -/
def socket3w : TcpSocket :=
  { TcpSocket.new 0 4 with state := TcpState.Connected (SocketAddr.mk 0) }

/-- Witness for C3 at a concrete input: a connected socket with no recorded
last-check time polls at time 0 (returns true), and polled again at time 5
(less than the 15-tick interval later) returns false. -/
theorem c3_should_update_amended_witness :
    TcpSocket.is_connected socket3w = true
    ∧ (TcpSocket.should_update_available_data socket3w 0).1 = true
    ∧ (TcpSocket.should_update_available_data
        (TcpSocket.should_update_available_data socket3w 0).2 5).1 = false :=
  ⟨rfl, rfl,
    (c3_should_update_amended socket3w 0).2.2.1 5 rfl rfl (by decide) (by decide)⟩

/-- The concrete listener of the C5 counterexample: handle 0 bound to port
80 with one peer (peer 9, address 99) already pending on the port's queue. -/
def listener5c : UdpListener :=
  { capN := 4, capL := 4
    handles := [(SocketHandle.mk 0, 80)]
    connections := [(80, [(SocketHandle.mk 9, SocketAddr.mk 99)])] }

/-- Claim C5, counterexample to the claim as stated: registering the
association (handle 1, address 11) succeeds — the pair is appended behind
the already-pending entry, as the second conjunct shows — yet the
immediately following `get_outgoing` for address 11 returns `none`, not the
registered handle, because the code matches only the front of the queue.  So
"a registration followed immediately by get_outgoing yields h" fails for an
association that is not frontmost. -/
theorem c5_claim_counterexample :
    (UdpListener.outgoing_connection listener5c (SocketHandle.mk 0)
      (SocketHandle.mk 1) (SocketAddr.mk 11)).1 = Except.ok ()
    ∧ mapGet (UdpListener.outgoing_connection listener5c (SocketHandle.mk 0)
        (SocketHandle.mk 1) (SocketAddr.mk 11)).2.connections 80
      = some [(SocketHandle.mk 9, SocketAddr.mk 99),
              (SocketHandle.mk 1, SocketAddr.mk 11)]
    ∧ (UdpListener.get_outgoing
        (UdpListener.outgoing_connection listener5c (SocketHandle.mk 0)
          (SocketHandle.mk 1) (SocketAddr.mk 11)).2
        (SocketHandle.mk 0) (SocketAddr.mk 11)).1 = none
    ∧ (none : Option SocketHandle) ≠ some (SocketHandle.mk 1) :=
  ⟨rfl, rfl, rfl, by decide⟩
